import Mathlib

/-!
Shallow embedding of the farsight2 SEC-filing ingestion and query pipeline
(`src/farsight2`) together with proofs about its data model and operations.

Modelling conventions: Python integers are modelled as `Int`/`Nat`; the only
float values relevant to the claims are the literals `1.0`, `0.9`, `0.8` and
`0.0`, modelled as rationals; Python exceptions are modelled with `Except`;
database tables are lists of rows, and a SQLAlchemy `query(...).filter(p).first()`
is `List.find? p`; `datetime` values are carried as opaque ISO strings.
-/

namespace Farsight2

/-- Little-endian base-10 digit list of `n`.  The first argument is explicit
recursion fuel (any fuel with `n < 10 ^ fuel` gives the digits of `n`), so the
definition is structurally recursive and reduces in the kernel. -/
def natDigitsRev : Nat → Nat → List Nat
  | 0, _ => []
  | f + 1, n => if n = 0 then [] else (n % 10) :: natDigitsRev f (n / 10)

/-- Recombine a little-endian base-10 digit list into the number it denotes. -/
def ofDigitsRev : List Nat → Nat
  | [] => 0
  | d :: ds => d + 10 * ofDigitsRev ds

/-- Decimal rendering of a natural number: Python `str` on a non-negative
`int`, e.g. `pyNatStr 2023 = "2023"`. -/
def pyNatStr (n : Nat) : String :=
  if n = 0 then "0" else (((natDigitsRev n n).reverse).map Nat.digitChar).asString

/-- Python `str` on an `int`: decimal digits, preceded by `-` for negatives. -/
def pyIntStr (n : Int) : String :=
  if n < 0 then "-" ++ pyNatStr (-n).toNat else pyNatStr n.toNat

/-- Python substring containment `needle in hay`. -/
def pyStrContains (hay needle : String) : Bool :=
  (List.range (hay.data.length + 1)).any
    (fun i => ((hay.data.drop i).take needle.data.length) == needle.data)

/-- Python `str.strip()`: drop leading and trailing whitespace. -/
def pyStrip (s : String) : String :=
  ((s.data.dropWhile Char.isWhitespace).reverse.dropWhile Char.isWhitespace).reverse.asString

/-- Python `filing_type.replace("-", "")`: with an empty replacement and a
one-character pattern this removes every `-` from the string. -/
def pyRemoveDashes (s : String) : String :=
  (s.data.filter (fun c => c != '-')).asString

/-- Python `range(0, stop, step)` for positive `step`. -/
def pyRangeStep (stop step : Nat) : List Nat :=
  (List.range ((stop + step - 1) / step)).map (fun k => k * step)

/-! ## `farsight2/constants.py` -/

/-- The quarter segment of a document id: the f-string piece
`{quarter if quarter else '4'}` of `generate_document_id`.  Python truthiness
makes both `None` and `0` fall back to `"4"`. -/
def pyQuarterSegment : Option Int → String
  | none => "4"
  | some q => if q = 0 then "4" else pyIntStr q

/-- `constants.py`, `generate_document_id`: builds
`f"{ticker}_{year}_{quarter if quarter else '4'}_{filing_type.replace('-', '')}"`. -/
def generate_document_id (ticker : String) (year : Int) (quarter : Option Int)
    (filing_type : String) : String :=
  ticker ++ "_" ++ pyIntStr year ++ "_" ++ pyQuarterSegment quarter ++ "_"
    ++ pyRemoveDashes filing_type

/-! ## Data model (`farsight2/models/models.py` and `farsight2/database/models.py`)

`DocumentRepository.to_model` copies a `Document` database row field by field
into the pydantic `DocumentMetadata` model; both carry the same six fields, so
one structure serves as row and model (`to_model` below is written out as the
field-by-field copy the source performs).  The pydantic models `content`
(`DocumentMetadata`), `requires_numerical_data`, `data_types` and `time_range`
(`QueryAnalysis`) fields are never read by any code under proof and are
omitted. -/

structure DocumentRow where
  document_id : String
  ticker : String
  year : Int
  quarter : Option Int
  filing_type : String
  filing_date : Option String
deriving DecidableEq, Repr

/-- The pydantic `DocumentMetadata` model (same six fields as the row). -/
abbrev DocumentMetadata := DocumentRow

/-- A `companies` table row (`database/models.py`, `Company`). -/
structure CompanyRow where
  ticker : String
  name : Option String
deriving DecidableEq, Repr

/-- The relational store, restricted to the tables the document flow touches. -/
structure DB where
  companies : List CompanyRow
  documents : List DocumentRow
deriving DecidableEq, Repr

/-- `models/models.py`, `QueryAnalysis` (pydantic). -/
structure QueryAnalysis where
  query : String
  companies : List String
  years : List Int
  quarters : List Int
  topics : List String
  embedding : Option (List ℚ)
deriving DecidableEq, Repr

/-- `models/models.py`, `DocumentReference` (pydantic). -/
structure DocumentReference where
  document_id : String
  relevance_score : ℚ
deriving DecidableEq, Repr

/-- A `document_chunks` table row / the pydantic `DocumentChunk` model
(`created_at`, a wall-clock timestamp, is omitted). -/
structure DocumentChunkRow where
  chunk_id : String
  document_id : String
  content : String
  content_type : String
  location : String
deriving DecidableEq, Repr

/-- `models/models.py`, `RelevantChunk` (pydantic). -/
structure RelevantChunk where
  chunk : DocumentChunkRow
  relevance_score : ℚ
deriving DecidableEq, Repr

/-- `models/models.py`, `TextChunk` (pydantic; `page_number`, always `None` in
the paths under proof, is omitted). -/
structure TextChunk where
  chunk_id : String
  document_id : String
  text : String
  «section» : Option String
deriving DecidableEq, Repr

/-- A `fact_values` row; of the many optional pydantic fields, the ones the
XBRL save path reads. -/
structure FactValueModel where
  fact_id : String
  ticker : String
  value : ℚ
  document_id : String
  filing_type : String
  fiscal_year : Int
  fiscal_period : String
deriving DecidableEq, Repr

/-! ## `farsight2/database/repository.py` -/

/-- `DocumentRepository.get_documents_by_ticker`. -/
def DocumentRepository.get_documents_by_ticker (db : DB) (ticker : String) : List DocumentRow :=
  db.documents.filter (fun d => d.ticker == ticker)

/-- `DocumentRepository.to_model`: field-by-field copy of a row into the model. -/
def DocumentRepository.to_model (document : DocumentRow) : DocumentMetadata :=
  { document_id := document.document_id
    ticker := document.ticker
    year := document.year
    quarter := document.quarter
    filing_type := document.filing_type
    filing_date := document.filing_date }

/-! ## `farsight2/database/unified_repository.py` (document methods) -/

/-- `UnifiedRepository.get_documents_by_company`. -/
def UnifiedRepository.get_documents_by_company (db : DB) (ticker : String) :
    List DocumentMetadata :=
  (DocumentRepository.get_documents_by_ticker db ticker).map DocumentRepository.to_model

/-! ## `farsight2/api/app.py`, `process_document` -/

/-- Stable descending sort by a rational-valued key: the embedding of
`list.sort(key=..., reverse=True)`. -/
def pySortByScoreDesc {α : Type} (score : α → ℚ) (l : List α) : List α :=
  @List.insertionSort α (fun a b => score b ≤ score a)
    (fun a b => inferInstanceAs (Decidable (score b ≤ score a))) l

/-! ## `farsight2/query_processing/document_selector.py`

`DocumentSelector.select_documents` loops over companies, then years, then
quarters, appending scored `DocumentReference`s; the local variable `quarters`
is mutated inside the loop (`if not quarters: quarters = [1, 2, 3, 4]`), so the
loop state is the pair (collected references, current quarters list).  The
constructor argument `document_registry` is used only for the membership test
`company not in self.document_registry` and is modelled as the list of its
keys; `self.repository.get_documents_by_company` is passed in as the function
`repo_documents` (it reads the document store). -/

/-- The body of `for quarter in quarters:`: Q4 is skipped, other quarters
append the matching 10-Q filings at relevance `0.9`. -/
def DocumentSelector.quarter_step (company_documents : List DocumentMetadata) (year : Int)
    (refs : List DocumentReference) (quarter : Int) : List DocumentReference :=
  if quarter = 4 then refs
  else
    refs ++ (company_documents.filter (fun d =>
      d.year == year && d.filing_type == "10-Q" && d.quarter == some quarter)).map
        (fun d => { document_id := d.document_id, relevance_score := mkRat 9 10 })

/-- The body of `for year in years:`: 10-Ks at relevance `1.0`, then the
quarters default, then either the quarter loop (`if quarters:`) or, were the
quarters list empty at that point, all 10-Qs at relevance `0.8`. -/
def DocumentSelector.year_step (company_documents : List DocumentMetadata)
    (state : List DocumentReference × List Int) (year : Int) :
    List DocumentReference × List Int :=
  let annual_docs := company_documents.filter (fun d =>
    d.year == year && d.filing_type == "10-K")
  let refs := state.1 ++ annual_docs.map
    (fun d => { document_id := d.document_id, relevance_score := (1 : ℚ) })
  let quarters := if state.2 = [] then [1, 2, 3, 4] else state.2
  if quarters = [] then
    (refs ++ (company_documents.filter (fun d =>
      d.year == year && d.filing_type == "10-Q")).map
        (fun d => { document_id := d.document_id, relevance_score := mkRat 4 5 }), quarters)
  else
    (quarters.foldl (DocumentSelector.quarter_step company_documents year) refs, quarters)

/-- The body of `for company in companies:`: skip companies missing from the
registry, otherwise fetch the documents of the company and run the year loop. -/
def DocumentSelector.company_step (registry : List String)
    (repo_documents : String → List DocumentMetadata) (years : List Int)
    (state : List DocumentReference × List Int) (company : String) :
    List DocumentReference × List Int :=
  if company ∉ registry then state
  else years.foldl (DocumentSelector.year_step (repo_documents company)) state

/-- `DocumentSelector.select_documents`. -/
def select_documents (registry : List String)
    (repo_documents : String → List DocumentMetadata) (current_year : Int)
    (query_analysis : QueryAnalysis) : List DocumentReference :=
  if query_analysis.companies = [] then []
  else
    let years := if query_analysis.years = [] then [current_year] else query_analysis.years
    pySortByScoreDesc DocumentReference.relevance_score
      (query_analysis.companies.foldl
        (DocumentSelector.company_step registry repo_documents years)
        ([], query_analysis.quarters)).1

/-! ## `farsight2/embedding/unified_embedding_service.py` -/

/-- `UnifiedEmbeddingService.generate_embedding`: truncate long input, call the
embedding endpoint (modelled by `api`, applied to the possibly truncated text);
any exception is caught and replaced by the fallback zero vector
`[0.0] * (3072 if "3-small" in self.embedding_model else 3072)`. -/
def generate_embedding (embedding_model : String) (api : String → Except Unit (List ℚ))
    (text : String) : List ℚ :=
  let max_tokens : Nat := 7000
  let text1 := if text.length > max_tokens * 4 then (text.data.take (max_tokens * 4)).asString
    else text
  match api text1 with
  | .ok embedding => embedding
  | .error _ =>
    List.replicate (if pyStrContains embedding_model "3-small" then 3072 else 3072) 0

/-- Modelled from the spec: the "configured dimensionality" of the external
embedding model (spec sections 4.3 and 8).  The repository holds no
dimensionality table; the OpenAI models it names produce 1536-dimensional
vectors for `text-embedding-3-small` and 3072-dimensional vectors for
`text-embedding-3-large`, and the sibling implementation
`embedding/embedder.py` indeed uses a 1536-long fallback ("Default dimension
for OpenAI embeddings") for its `text-embedding-3-small` model. -/
def embedding_model_dimensionality (model : String) : Nat :=
  if pyStrContains model "3-small" then 1536 else 3072

/-- A Python exception, as raised by the paths under proof. -/
inductive PyError where
  | keyError (key : String)
  | typeError
  | nameError (name : String)
deriving DecidableEq, Repr

/-- The optional `filter_dict` argument of the embedding search
(`{"document_id": ..., "content_type": ...}`). -/
structure FilterDict where
  document_id : Option String
  content_type : Option String
deriving DecidableEq, Repr

/-- The names `database/repository.py` binds from sqlalchemy at module level:
`from sqlalchemy.orm import Session` and `from sqlalchemy import func` — and
nothing else; in particular the module neither imports nor defines `text`. -/
def repository_py_sqlalchemy_imports : List String := ["Session", "func"]

/-- Evaluating a bare sqlalchemy name in `database/repository.py`: an unbound
name raises `NameError`. -/
def repository_py_resolve (name : String) : Except PyError Unit :=
  if name ∈ repository_py_sqlalchemy_imports then .ok () else .error (.nameError name)

/-- `EmbeddingRepository.search_embeddings` (`database/repository.py`): builds
the query lazily — chunks joined with their embeddings, scored by pgvector
cosine similarity (`1 - cosine_distance`, modelled by the abstract
`cosine_similarity`), with the optional `document_id` / `content_type`
filters — then executes
`query.order_by(text("similarity DESC")).limit(top_k).all()`.  Evaluating the
bare name `text` raises `NameError` on every call, since the module imports
only `func` from sqlalchemy; were the name bound, the call would return the
filtered rows ordered by similarity descending and truncated to `top_k`. -/
def EmbeddingRepository.search_embeddings
    (chunk_embeddings : List (DocumentChunkRow × List ℚ))
    (cosine_similarity : List ℚ → List ℚ → ℚ)
    (query_embedding : List ℚ) (top_k : Nat) (filter_dict : Option FilterDict) :
    Except PyError (List (DocumentChunkRow × ℚ)) :=
  let scored := chunk_embeddings.map
    (fun ce => (ce.1, cosine_similarity query_embedding ce.2))
  let filtered :=
    match filter_dict with
    | none => scored
    | some fd =>
      let f1 :=
        match fd.document_id with
        | none => scored
        | some did => scored.filter (fun p => p.1.document_id == did)
      match fd.content_type with
      | none => f1
      | some ct => f1.filter (fun p => p.1.content_type == ct)
  match repository_py_resolve "text" with
  | .error e => .error e
  | .ok _ => .ok ((pySortByScoreDesc Prod.snd filtered).take top_k)

/-- `UnifiedRepository.search_embeddings`: wrap each scored chunk as a
`RelevantChunk`; no handler, so the store exception propagates. -/
def UnifiedRepository.search_embeddings (chunk_embeddings : List (DocumentChunkRow × List ℚ))
    (cosine_similarity : List ℚ → List ℚ → ℚ) (query_embedding : List ℚ) (top_k : Nat)
    (filter_dict : Option FilterDict) : Except PyError (List RelevantChunk) :=
  match EmbeddingRepository.search_embeddings chunk_embeddings cosine_similarity
      query_embedding top_k filter_dict with
  | .error e => .error e
  | .ok results => .ok (results.map (fun p => { chunk := p.1, relevance_score := p.2 }))

/-- `UnifiedEmbeddingService.search_by_embedding`: pass-through to the store;
no handler. -/
def UnifiedEmbeddingService.search_by_embedding
    (chunk_embeddings : List (DocumentChunkRow × List ℚ))
    (cosine_similarity : List ℚ → List ℚ → ℚ) (query_embedding : List ℚ) (top_k : Nat)
    (filter_dict : Option FilterDict) : Except PyError (List RelevantChunk) :=
  UnifiedRepository.search_embeddings chunk_embeddings cosine_similarity query_embedding
    top_k filter_dict

/-- `UnifiedEmbeddingService.search_documents`: collect the document ids of the
given references, build `{"document_id": document_ids[0]}` when the list is
non-empty (only the FIRST id is used), embed the query, and search; no
handler.  The `documents` parameter is annotated `List[DocumentMetadata]` in
the source but `ContentRetriever` passes `DocumentReference`s; only
`.document_id` is read. -/
def UnifiedEmbeddingService.search_documents
    (chunk_embeddings : List (DocumentChunkRow × List ℚ))
    (cosine_similarity : List ℚ → List ℚ → ℚ) (embedding_model : String)
    (api : String → Except Unit (List ℚ)) (query : String)
    (documents : List DocumentReference) (top_k : Nat) :
    Except PyError (List RelevantChunk) :=
  let document_ids := documents.map (fun d => d.document_id)
  let filter_dict : Option FilterDict :=
    match document_ids with
    | [] => none
    | did :: _ => some { document_id := some did, content_type := none }
  let query_embedding := generate_embedding embedding_model api query
  UnifiedEmbeddingService.search_by_embedding chunk_embeddings cosine_similarity
    query_embedding top_k filter_dict

/-! ## `farsight2/query_processing/content_retriever.py` -/

/-- `ContentRetriever.retrieve_content` (`top_k` defaults to 3 in the source):
search within the selected documents, sort by relevance score descending, take
the top `top_k` (the LLM reranking stage is commented out in the source).
There is no `try` around the search call, so a store exception propagates to
the caller. -/
def retrieve_content (chunk_embeddings : List (DocumentChunkRow × List ℚ))
    (cosine_similarity : List ℚ → List ℚ → ℚ) (embedding_model : String)
    (api : String → Except Unit (List ℚ)) (query : String)
    (query_analysis : QueryAnalysis) (document_references : List DocumentReference)
    (top_k : Nat) : Except PyError (List RelevantChunk) :=
  match UnifiedEmbeddingService.search_documents chunk_embeddings cosine_similarity
      embedding_model api query document_references top_k with
  | .error e => .error e
  | .ok relevant_chunks =>
    .ok ((pySortByScoreDesc RelevantChunk.relevance_score relevant_chunks).take top_k)

/-! ## `farsight2/query_processing/query_analyzer.py` -/

/-- The JSON object parsed from the LLM response in `_llm_analyze_query`: each
key may be absent (`none`) or present with a list. -/
structure LLMAnalysisDict where
  companies : Option (List String)
  years : Option (List Int)
  quarters : Option (List Int)
  topics : Option (List String)
deriving DecidableEq, Repr

/-- `QueryAnalyzer._llm_analyze_query`: the chat call and `json.loads` run in a
`try`; `llm` is `.error ()` when the call raises or the content is malformed
JSON, in which case the handler returns the dict with all four keys present
and empty. -/
def QueryAnalyzer.llm_analyze_query (llm : Except Unit LLMAnalysisDict) : LLMAnalysisDict :=
  match llm with
  | .ok analysis => analysis
  | .error _ => { companies := some [], years := some [], quarters := some [],
                  topics := some [] }

/-- `QueryAnalyzer.analyze_query`: read the four fields with `.get` defaults
(`quarters` defaults to `[1, 2, 3, 4]` when the key is absent), then call
`embed_query_analysis` — which has no exception handler, so its failure
(modelled by `embed`) propagates. -/
def QueryAnalyzer.analyze_query (query : String) (llm : Except Unit LLMAnalysisDict)
    (embed : Except Unit (List ℚ)) : Except Unit QueryAnalysis :=
  let llm_analysis := QueryAnalyzer.llm_analyze_query llm
  let companies := llm_analysis.companies.getD []
  let years := llm_analysis.years.getD []
  let quarters := llm_analysis.quarters.getD [1, 2, 3, 4]
  let topics := llm_analysis.topics.getD []
  match embed with
  | .error e => .error e
  | .ok embedding =>
    .ok { query := query, companies := companies, years := years, quarters := quarters,
          topics := topics, embedding := some embedding }

/-! ## XBRL fact-value persistence
(`farsight2/document_processing/edgar_client.py` and the fact methods of
`farsight2/database/unified_repository.py` / `database/repository.py`) -/

/-- The keys of the dict built by `RepositoryFactory.create_all_repositories`
(`database/repository_factory.py`): note there is no `"fact"` key. -/
def create_all_repositories_keys : List String :=
  ["company", "document", "chunk", "embedding", "test_suite", "evaluation",
   "text_chunk", "table", "chart"]

/-- `self._repos[key]`: dict subscript, raising `KeyError` for a missing key. -/
def UnifiedRepository.repos_get (key : String) : Except PyError Unit :=
  if key ∈ create_all_repositories_keys then .ok () else .error (.keyError key)

/-- `FactRepository.get_fact_value_by_details` (`database/repository.py`):
the real signature takes FOUR lookup arguments
(`fact_id`, `document_id`, `fiscal_year`, `fiscal_period`) and filters the
`fact_values` table by them. -/
def FactRepository.get_fact_value_by_details (fact_values : List FactValueModel)
    (fact_id : String) (document_id : String) (fiscal_year : Int)
    (fiscal_period : String) : Option FactValueModel :=
  fact_values.find? (fun fv =>
    fv.fact_id == fact_id && fv.document_id == document_id
      && fv.fiscal_year == fiscal_year && fv.fiscal_period == fiscal_period)

/-- `UnifiedRepository.get_fact_value_by_details`: evaluates
`self._repos["fact"].get_fact_value_by_details(fact_id, ticker, year, quarter,
filing_type)`.  The dict subscript raises `KeyError` (no `"fact"` key exists);
had the key existed, the call itself would raise `TypeError`, since
`FactRepository.get_fact_value_by_details` accepts four positional arguments
but five are passed.  The `quarter` parameter is annotated `Optional[int]` but
the XBRL ingester passes the `fiscal_period` string — Python does not check
annotations, so the parameter is left polymorphic here. -/
def UnifiedRepository.get_fact_value_by_details {α : Type}
    (fact_values : List FactValueModel) (fact_id : String) (ticker : String)
    (year : Int) (quarter : α) (filing_type : String) :
    Except PyError (Option FactValueModel) :=
  match UnifiedRepository.repos_get "fact" with
  | .error e => .error e
  | .ok _ => .error .typeError

/-- The running tallies of `EdgarClient.save_xbrl_fact_values`, together with
the `fact_values` table state. -/
structure SaveCounts where
  rows : List FactValueModel
  saved_count : Nat
  skipped_count : Nat
  error_count : Nat
deriving DecidableEq, Repr

/-- One iteration of the `for fact_value in fact_values:` loop of
`EdgarClient.save_xbrl_fact_values`: look up the existing value (inside
`try`), insert and count `saved` when absent, count `skipped` when present,
and count `error` when the lookup raises. -/
def EdgarClient.save_xbrl_fact_values_step (s : SaveCounts) (fact_value : FactValueModel) :
    SaveCounts :=
  match UnifiedRepository.get_fact_value_by_details s.rows fact_value.fact_id
      fact_value.ticker fact_value.fiscal_year fact_value.fiscal_period
      fact_value.filing_type with
  | .error _ => { s with error_count := s.error_count + 1 }
  | .ok none =>
    { s with rows := s.rows ++ [fact_value], saved_count := s.saved_count + 1 }
  | .ok (some _) => { s with skipped_count := s.skipped_count + 1 }

/-- `EdgarClient.save_xbrl_fact_values`: fold the per-value step over the
batch, starting from the current table and zeroed tallies. -/
def EdgarClient.save_xbrl_fact_values (ticker : String)
    (fact_values : List FactValueModel) (rows : List FactValueModel) : SaveCounts :=
  fact_values.foldl EdgarClient.save_xbrl_fact_values_step
    { rows := rows, saved_count := 0, skipped_count := 0, error_count := 0 }

/-! ## `farsight2/document_processing/document_processor.py`

`DocumentProcessor._extract_text_chunks` tries, in order: SEC `ITEM` headings
in the HTML tree, container elements selected by class or id, `ITEM` headings
in the flattened text, and finally fixed-size windows of the flattened text.
The embedding below covers inputs without markup (no `<`, so the
BeautifulSoup tree has no elements and `soup.get_text()` is the input
unchanged) and without an `ITEM`/`item` occurrence, for which the source
reaches the final chunk-by-size branch:

    chunk_size = 3000
    chunks = [full_text[i:i+chunk_size] for i in range(0, len(full_text), chunk_size)]
    for i, chunk_text in enumerate(chunks):
        if chunk_text.strip():
            text_chunks.append(TextChunk(chunk_id=f"{document_id}_text_{i}", ...,
                text=chunk_text.strip(), section=f"Chunk {i+1}", page_number=None))
-/

/-- The chunk-by-size fallback of `_extract_text_chunks` on markup-free input
(see the section comment): the only guard on an emitted chunk is that the
stripped window text is non-empty. -/
def extract_text_chunks_plain (content : String) (document_id : String) : List TextChunk :=
  let chunk_size : Nat := 3000
  let chunks := (pyRangeStep content.length chunk_size).map
    (fun i => ((content.data.drop i).take chunk_size).asString)
  chunks.enum.filterMap (fun p =>
    if pyStrip p.2 = "" then none
    else some { chunk_id := document_id ++ "_text_" ++ pyNatStr p.1
                document_id := document_id
                text := pyStrip p.2
                «section» := some ("Chunk " ++ pyNatStr (p.1 + 1)) })

/-! ## Helper lemmas: decimal rendering is injective -/

theorem ofDigitsRev_natDigitsRev :
    ∀ (f n : Nat), n < 10 ^ f → ofDigitsRev (natDigitsRev f n) = n := by
  intro f
  induction f with
  | zero =>
    intro n h
    simp only [pow_zero, Nat.lt_one_iff] at h
    subst h
    rfl
  | succ f ih =>
    intro n h
    by_cases h0 : n = 0
    · subst h0
      rfl
    · simp only [natDigitsRev, if_neg h0, ofDigitsRev]
      have hdiv : n / 10 < 10 ^ f := by
        apply Nat.div_lt_of_lt_mul
        rw [pow_succ] at h
        omega
      rw [ih _ hdiv]
      omega

theorem natDigitsRev_mem_lt : ∀ (f n : Nat), ∀ d ∈ natDigitsRev f n, d < 10 := by
  intro f
  induction f with
  | zero =>
    intro n d hd
    simp [natDigitsRev] at hd
  | succ f ih =>
    intro n d hd
    simp only [natDigitsRev] at hd
    by_cases h0 : n = 0
    · rw [if_pos h0] at hd
      simp at hd
    · rw [if_neg h0] at hd
      rcases List.mem_cons.mp hd with h1 | h2
      · omega
      · exact ih _ _ h2

theorem digitChar_injOn : ∀ d < 10, ∀ e < 10, Nat.digitChar d = Nat.digitChar e → d = e := by
  decide

theorem digitChar_ne_minus : ∀ d < 10, Nat.digitChar d ≠ '-' := by decide

theorem map_digitChar_inj :
    ∀ (l1 l2 : List Nat), (∀ d ∈ l1, d < 10) → (∀ d ∈ l2, d < 10) →
      l1.map Nat.digitChar = l2.map Nat.digitChar → l1 = l2 := by
  intro l1
  induction l1 with
  | nil =>
    intro l2 _ _ h
    cases l2 with
    | nil => rfl
    | cons b t2 => simp at h
  | cons a t ih =>
    intro l2 h1 h2 h
    cases l2 with
    | nil => simp at h
    | cons b t2 =>
      simp only [List.map_cons, List.cons.injEq] at h
      have hab : a = b :=
        digitChar_injOn a (h1 a (List.mem_cons_self a t)) b (h2 b (List.mem_cons_self b t2)) h.1
      subst hab
      rw [ih t2 (fun d hd => h1 d (List.mem_cons_of_mem _ hd))
        (fun d hd => h2 d (List.mem_cons_of_mem _ hd)) h.2]

theorem data_asString (l : List Char) : l.asString.data = l := rfl

theorem asString_inj {l1 l2 : List Char} (h : l1.asString = l2.asString) : l1 = l2 := by
  have h2 := congrArg String.data h
  rwa [data_asString, data_asString] at h2

theorem render_digits_inj {a b : Nat}
    (h : ((natDigitsRev a a).reverse.map Nat.digitChar) =
      ((natDigitsRev b b).reverse.map Nat.digitChar)) : a = b := by
  have hrev := map_digitChar_inj _ _
    (fun d hd => natDigitsRev_mem_lt a a d (List.mem_reverse.mp hd))
    (fun d hd => natDigitsRev_mem_lt b b d (List.mem_reverse.mp hd)) h
  have hdig : natDigitsRev a a = natDigitsRev b b := by
    have := congrArg List.reverse hrev
    simpa using this
  have ra := ofDigitsRev_natDigitsRev a a (Nat.lt_pow_self (by norm_num) a)
  have rb := ofDigitsRev_natDigitsRev b b (Nat.lt_pow_self (by norm_num) b)
  rw [← ra, ← rb, hdig]

theorem data_zero_string : ("0" : String).data = ['0'] := by decide

theorem render_eq_zero_char {b : Nat}
    (h : ((natDigitsRev b b).reverse.map Nat.digitChar) = ['0']) : b = 0 := by
  have hb := ofDigitsRev_natDigitsRev b b (Nat.lt_pow_self (by norm_num) b)
  rcases hrev : (natDigitsRev b b).reverse with _ | ⟨d, t⟩
  · rw [hrev] at h
    simp at h
  · rw [hrev] at h
    simp only [List.map_cons, List.cons.injEq] at h
    obtain ⟨hd0, ht⟩ := h
    have htnil : t = [] := by
      cases t with
      | nil => rfl
      | cons x xs => simp at ht
    subst htnil
    have hdlt : d < 10 :=
      natDigitsRev_mem_lt b b d (List.mem_reverse.mp (by rw [hrev]; simp))
    have hd : d = 0 := digitChar_injOn d hdlt 0 (by norm_num) (by rw [hd0]; decide)
    subst hd
    have hsing : natDigitsRev b b = [0] := by
      have := congrArg List.reverse hrev
      simpa using this
    rw [hsing] at hb
    simpa [ofDigitsRev] using hb.symm

theorem pyNatStr_inj : Function.Injective pyNatStr := by
  intro a b h
  unfold pyNatStr at h
  by_cases ha : a = 0 <;> by_cases hb : b = 0
  · rw [ha, hb]
  · exfalso
    rw [if_pos ha, if_neg hb] at h
    have hl := congrArg String.data h
    rw [data_zero_string, data_asString] at hl
    exact hb (render_eq_zero_char hl.symm)
  · exfalso
    rw [if_neg ha, if_pos hb] at h
    have hl := congrArg String.data h
    rw [data_zero_string, data_asString] at hl
    exact ha (render_eq_zero_char hl)
  · rw [if_neg ha, if_neg hb] at h
    exact render_digits_inj (asString_inj h)

theorem pyNatStr_data_digitChar :
    ∀ n, ∀ c ∈ (pyNatStr n).data, ∃ d, d < 10 ∧ c = Nat.digitChar d := by
  intro n c hc
  unfold pyNatStr at hc
  by_cases h0 : n = 0
  · rw [if_pos h0, data_zero_string] at hc
    simp only [List.mem_singleton] at hc
    exact ⟨0, by norm_num, by rw [hc]; rfl⟩
  · rw [if_neg h0, data_asString] at hc
    rcases List.mem_map.mp hc with ⟨d, hd, rfl⟩
    exact ⟨d, natDigitsRev_mem_lt n n d (List.mem_reverse.mp hd), rfl⟩

theorem data_minus_string : ("-" : String).data = ['-'] := by decide

theorem pyIntStr_inj : Function.Injective pyIntStr := by
  have key : ∀ a b : Int, a < 0 → ¬b < 0 → "-" ++ pyNatStr (-a).toNat ≠ pyNatStr b.toNat := by
    intro a b _ _ h
    have hd := congrArg String.data h
    rw [String.data_append, data_minus_string] at hd
    have hmem : '-' ∈ (pyNatStr b.toNat).data := by
      rw [← hd]
      simp
    rcases pyNatStr_data_digitChar _ _ hmem with ⟨d, hdlt, hdc⟩
    exact digitChar_ne_minus d hdlt hdc.symm
  intro a b h
  unfold pyIntStr at h
  by_cases ha : a < 0 <;> by_cases hb : b < 0
  · rw [if_pos ha, if_pos hb] at h
    have hd := congrArg String.data h
    rw [String.data_append, String.data_append, data_minus_string] at hd
    simp only [List.cons_append, List.nil_append, List.cons.injEq, true_and] at hd
    have := pyNatStr_inj (String.ext hd)
    omega
  · rw [if_pos ha, if_neg hb] at h
    exact absurd h (key a b ha hb)
  · rw [if_neg ha, if_pos hb] at h
    exact absurd h.symm (key b a hb ha)
  · rw [if_neg ha, if_neg hb] at h
    have := pyNatStr_inj h
    omega

/-! ## Claim C2: determinism and injectivity of `generate_document_id` -/

/-- Claim C2 counterexample: the tuples `("AAPL", 2023, None, "10-K")` and
`("AAPL", 2023, 4, "10-K")` differ in exactly one field (the quarter) yet
receive the same document id, because `quarter if quarter else '4'` renders
both `None` and `4` as the segment `"4"`. -/
theorem generate_document_id_none_four_collision :
    generate_document_id "AAPL" 2023 none "10-K" =
      generate_document_id "AAPL" 2023 (some 4) "10-K"
    ∧ (none : Option Int) ≠ some 4 :=
  ⟨by decide, by decide⟩

/-- Claim C2 (amended): `generate_document_id` is deterministic
(`generate_document_id "AAPL" 2023 2 "10-Q"` is always `"AAPL_2023_2_10Q"`),
and a change to exactly one field changes the id, except that a change of the
quarter field changes the id exactly when the rendered quarter segment changes
(`None`, `0` and `4` all render as `"4"`), and a change of the filing type
changes the id exactly when the type with dashes removed changes. -/
theorem generate_document_id_det_and_injective :
    generate_document_id "AAPL" 2023 (some 2) "10-Q" = "AAPL_2023_2_10Q"
    ∧ (∀ t t' y q ft, t ≠ t' →
        generate_document_id t y q ft ≠ generate_document_id t' y q ft)
    ∧ (∀ t y y' q ft, y ≠ y' →
        generate_document_id t y q ft ≠ generate_document_id t y' q ft)
    ∧ (∀ t y q q' ft, pyQuarterSegment q ≠ pyQuarterSegment q' →
        generate_document_id t y q ft ≠ generate_document_id t y q' ft)
    ∧ (∀ t y q ft ft', pyRemoveDashes ft ≠ pyRemoveDashes ft' →
        generate_document_id t y q ft ≠ generate_document_id t y q ft')
    ∧ (∀ t y q q' ft, pyQuarterSegment q = pyQuarterSegment q' →
        generate_document_id t y q ft = generate_document_id t y q' ft) := by
  refine ⟨by decide, ?_, ?_, ?_, ?_, ?_⟩
  · intro t t' y q ft hne heq
    apply hne
    have hd := congrArg String.data heq
    simp only [generate_document_id, String.data_append, List.append_assoc] at hd
    exact String.ext (List.append_cancel_right hd)
  · intro t y y' q ft hne heq
    apply hne
    have hd := congrArg String.data heq
    simp only [generate_document_id, String.data_append, List.append_assoc] at hd
    have h1 := List.append_cancel_left hd
    have h2 := List.append_cancel_left h1
    exact pyIntStr_inj (String.ext (List.append_cancel_right h2))
  · intro t y q q' ft hne heq
    apply hne
    have hd := congrArg String.data heq
    simp only [generate_document_id, String.data_append, List.append_assoc] at hd
    have h1 := List.append_cancel_left hd
    have h2 := List.append_cancel_left h1
    have h3 := List.append_cancel_left h2
    have h4 := List.append_cancel_left h3
    exact String.ext (List.append_cancel_right h4)
  · intro t y q ft ft' hne heq
    apply hne
    have hd := congrArg String.data heq
    simp only [generate_document_id, String.data_append, List.append_assoc] at hd
    have h1 := List.append_cancel_left hd
    have h2 := List.append_cancel_left h1
    have h3 := List.append_cancel_left h2
    have h4 := List.append_cancel_left h3
    have h5 := List.append_cancel_left h4
    exact String.ext (List.append_cancel_left h5)
  · intro t y q q' ft hseg
    simp only [generate_document_id, hseg]

/-- Witness for the amended claim C2, instantiating every clause at concrete
inputs. -/
theorem generate_document_id_det_and_injective_witness :
    generate_document_id "AAPL" 2023 (some 2) "10-Q" ≠
      generate_document_id "MSFT" 2023 (some 2) "10-Q"
    ∧ generate_document_id "AAPL" 2023 (some 2) "10-Q" ≠
      generate_document_id "AAPL" 2024 (some 2) "10-Q"
    ∧ generate_document_id "AAPL" 2023 (some 2) "10-Q" ≠
      generate_document_id "AAPL" 2023 (some 3) "10-Q"
    ∧ generate_document_id "AAPL" 2023 (some 2) "10-Q" ≠
      generate_document_id "AAPL" 2023 (some 2) "10-K"
    ∧ generate_document_id "AAPL" 2023 none "10-Q" =
      generate_document_id "AAPL" 2023 (some 4) "10-Q" :=
  ⟨generate_document_id_det_and_injective.2.1 _ _ _ _ _ (by decide),
   generate_document_id_det_and_injective.2.2.1 _ _ _ _ _ (by decide),
   generate_document_id_det_and_injective.2.2.2.1 _ _ _ _ _ (by decide),
   generate_document_id_det_and_injective.2.2.2.2.1 _ _ _ _ _ (by decide),
   generate_document_id_det_and_injective.2.2.2.2.2 _ _ _ _ _ (by decide)⟩

/-! ## Claims C1 and C10: the `/process` endpoint -/

/-- Claim C8: when the query-analysis LLM call fails or returns malformed JSON
(the `.error ()` outcome of `_llm_analyze_query`), and the subsequent
query-embedding call succeeds, `analyze_query` does not raise and returns a
`QueryAnalysis` whose companies, years, quarters and topics are all empty
(the failure dict carries all four keys, so the `[1, 2, 3, 4]` quarters
default for a missing key does not apply). -/
theorem analyze_query_llm_failure_empty (query : String) (embedding : List ℚ) :
    QueryAnalyzer.analyze_query query (.error ()) (.ok embedding) =
      .ok { query := query, companies := [], years := [], quarters := [], topics := [],
            embedding := some embedding } := rfl

/-! ## Claim C4: embedding fallback vector -/

/-- Claim C4 (code bug): when the embedding endpoint raises,
`generate_embedding` catches the exception and returns an all-zero vector —
but its length is 3072 for every configured model, because both branches of
`3072 if "3-small" in self.embedding_model else 3072` are 3072; for the
1536-dimensional `text-embedding-3-small` the fallback therefore has the
wrong length. -/
theorem generate_embedding_fallback_constant :
    (∀ (embedding_model text : String),
      generate_embedding embedding_model (fun _ => .error ()) text =
        List.replicate 3072 (0 : ℚ))
    ∧ generate_embedding "text-embedding-3-small" (fun _ => .error ()) "some text" =
        List.replicate 3072 (0 : ℚ)
    ∧ embedding_model_dimensionality "text-embedding-3-small" = 1536
    ∧ (3072 : Nat) ≠ 1536 := by
  have h1 : ∀ (embedding_model text : String),
      generate_embedding embedding_model (fun _ => .error ()) text =
        List.replicate 3072 (0 : ℚ) := by
    intro m t
    show List.replicate (if pyStrContains m "3-small" then 3072 else 3072) (0 : ℚ) =
      List.replicate 3072 (0 : ℚ)
    rw [ite_self]
  exact ⟨h1, h1 _ _, by decide, by decide⟩

/-! ## Claim C3: XBRL fact-value persistence -/

theorem save_xbrl_fact_values_foldl (fact_values : List FactValueModel) :
    ∀ s : SaveCounts,
      fact_values.foldl EdgarClient.save_xbrl_fact_values_step s =
        { s with error_count := s.error_count + fact_values.length } := by
  induction fact_values with
  | nil =>
    intro s
    simp
  | cons v t ih =>
    intro s
    rw [List.foldl_cons]
    have hstep : EdgarClient.save_xbrl_fact_values_step s v =
        { s with error_count := s.error_count + 1 } := rfl
    rw [hstep, ih]
    cases s
    simp
    omega

/-- Claim C3 (code bug): the duplicate check of `save_xbrl_fact_values` never
runs — `RepositoryFactory.create_all_repositories` builds `_repos` without a
`"fact"` key, so `self._repos["fact"]` raises on every lookup (and even with
the key, passing five arguments to the four-parameter
`FactRepository.get_fact_value_by_details` would raise `TypeError`); the
per-value exception handler counts every fact value as an error, so nothing
is ever inserted or skipped, for every batch and every table state. -/
theorem save_xbrl_fact_values_all_errors :
    ("fact" ∉ create_all_repositories_keys)
    ∧ ∀ (ticker : String) (fact_values : List FactValueModel) (rows : List FactValueModel),
        EdgarClient.save_xbrl_fact_values ticker fact_values rows =
          { rows := rows, saved_count := 0, skipped_count := 0,
            error_count := fact_values.length } := by
  refine ⟨by decide, ?_⟩
  intro ticker fact_values rows
  unfold EdgarClient.save_xbrl_fact_values
  rw [save_xbrl_fact_values_foldl]
  simp

/-! ## Claim C5: chunk minimum length -/

/-- Claim C5 counterexample: a markup-free 20-character filing body passes
through the chunk-by-size path and produces one `TextChunk` of 20 characters,
well under the claimed 50-character minimum (no length filter exists in
`_extract_text_chunks`). -/
theorem extract_text_chunks_short_chunk :
    extract_text_chunks_plain "Total revenue was 5." "doc1" =
      [{ chunk_id := "doc1_text_0", document_id := "doc1",
         text := "Total revenue was 5.", «section» := some "Chunk 1" }]
    ∧ ("Total revenue was 5." : String).length < 50 :=
  ⟨by decide, by decide⟩

/-- Claim C5 (amended): on the markup-free inputs covered by the embedding,
every emitted `TextChunk` has non-empty text after whitespace stripping — the
only guard in the source — and there is no 50-character minimum. -/
theorem extract_text_chunks_nonempty (content document_id : String) (c : TextChunk)
    (hc : c ∈ extract_text_chunks_plain content document_id) : c.text ≠ "" := by
  unfold extract_text_chunks_plain at hc
  simp only [List.mem_filterMap] at hc
  obtain ⟨p, _, hsome⟩ := hc
  by_cases h : pyStrip p.2 = ""
  · rw [if_pos h] at hsome
    exact absurd hsome (by simp)
  · rw [if_neg h] at hsome
    have := Option.some.inj hsome
    rw [← this]
    exact h

/-- Witness for the amended claim C5, at the 20-character input. -/
theorem extract_text_chunks_nonempty_witness :
    ({ chunk_id := "doc1_text_0", document_id := "doc1",
       text := "Total revenue was 5.", «section» := some "Chunk 1" } : TextChunk).text ≠ "" :=
  extract_text_chunks_nonempty "Total revenue was 5." "doc1" _ (by decide)

/-! ## Helper lemmas: the stable descending sort -/

theorem pySortByScoreDesc_perm {α : Type} (score : α → ℚ) (l : List α) :
    List.Perm (pySortByScoreDesc score l) l :=
  @List.perm_insertionSort α (fun a b => score b ≤ score a)
    (fun a b => inferInstanceAs (Decidable (score b ≤ score a))) l

theorem pySortByScoreDesc_sorted {α : Type} (score : α → ℚ) (l : List α) :
    List.Sorted (fun a b => score b ≤ score a) (pySortByScoreDesc score l) :=
  @List.sorted_insertionSort α (fun a b => score b ≤ score a)
    (fun a b => inferInstanceAs (Decidable (score b ≤ score a)))
    ⟨fun a b => le_total (score b) (score a)⟩
    ⟨fun _ _ _ hab hbc => le_trans hbc hab⟩ l

theorem pySortByScoreDesc_eq_of_sorted {α : Type} (score : α → ℚ) (l : List α)
    (h : List.Sorted (fun a b => score b ≤ score a) l) : pySortByScoreDesc score l = l :=
  @List.Sorted.insertionSort_eq α (fun a b => score b ≤ score a)
    (fun a b => inferInstanceAs (Decidable (score b ≤ score a))) l h

theorem filter_eq_singleton_of_perm {α : Type} (l l' : List α) (p : α → Bool) (x : α)
    (hperm : List.Perm l l') (h : l'.filter p = [x]) : l.filter p = [x] :=
  List.perm_singleton.mp ((hperm.filter p).trans (by rw [h]))

/-! ## Claim C9: selector ranking -/

/-- Claim C9: with exactly one 10-K and two 10-Qs (quarters 1 and 2) stored for
the requested company and year, and quarters `[1, 2]` requested, the selector
returns exactly the 10-K at relevance `1.0` followed by the two 10-Qs at
relevance `0.9`, the 10-K ranking first; and an analysis without companies
yields the empty list without raising. -/
theorem select_documents_ranking :
    (∀ (registry : List String) (repo_documents : String → List DocumentMetadata)
        (current_year : Int) (qs : String) (topics : List String)
        (emb : Option (List ℚ)) (c : String) (y : Int) (k q1 q2 : DocumentMetadata),
      c ∈ registry →
      List.Perm (repo_documents c) [k, q1, q2] →
      k.year = y → k.filing_type = "10-K" →
      q1.year = y → q1.filing_type = "10-Q" → q1.quarter = some 1 →
      q2.year = y → q2.filing_type = "10-Q" → q2.quarter = some 2 →
      select_documents registry repo_documents current_year
          { query := qs, companies := [c], years := [y], quarters := [1, 2],
            topics := topics, embedding := emb } =
        [{ document_id := k.document_id, relevance_score := 1 },
         { document_id := q1.document_id, relevance_score := mkRat 9 10 },
         { document_id := q2.document_id, relevance_score := mkRat 9 10 }])
    ∧ (∀ (registry : List String) (repo_documents : String → List DocumentMetadata)
        (current_year : Int) (qa : QueryAnalysis), qa.companies = [] →
        select_documents registry repo_documents current_year qa = []) := by
  constructor
  · intro registry repo_documents current_year qs topics emb c y k q1 q2
      hreg hperm hky hkft h1y h1ft h1q h2y h2ft h2q
    have hfk : (repo_documents c).filter
        (fun d => d.year == y && d.filing_type == "10-K") = [k] := by
      apply filter_eq_singleton_of_perm _ _ _ _ hperm
      simp [List.filter, hky, hkft, h1y, h1ft, h2y, h2ft]
    have hf1 : (repo_documents c).filter
        (fun d => d.year == y && d.filing_type == "10-Q" && d.quarter == some 1) = [q1] := by
      apply filter_eq_singleton_of_perm _ _ _ _ hperm
      simp [List.filter, hky, hkft, h1y, h1ft, h1q, h2y, h2ft, h2q]
    have hf2 : (repo_documents c).filter
        (fun d => d.year == y && d.filing_type == "10-Q" && d.quarter == some 2) = [q2] := by
      apply filter_eq_singleton_of_perm _ _ _ _ hperm
      simp [List.filter, hky, hkft, h1y, h1ft, h1q, h2y, h2ft, h2q]
    have hcomputed : select_documents registry repo_documents current_year
        { query := qs, companies := [c], years := [y], quarters := [1, 2],
          topics := topics, embedding := emb } =
        pySortByScoreDesc DocumentReference.relevance_score
          [{ document_id := k.document_id, relevance_score := 1 },
           { document_id := q1.document_id, relevance_score := mkRat 9 10 },
           { document_id := q2.document_id, relevance_score := mkRat 9 10 }] := by
      simp [select_documents, DocumentSelector.company_step, DocumentSelector.year_step,
        DocumentSelector.quarter_step, hreg, hfk, hf1, hf2]
    rw [hcomputed]
    apply pySortByScoreDesc_eq_of_sorted
    simp [List.sorted_cons]
    norm_num [mkRat]
  · intro registry repo_documents current_year qa h
    simp [select_documents, h]

/-- Witness for claim C9 at a concrete store with one 10-K and two 10-Qs. -/
theorem select_documents_ranking_witness :
    select_documents ["AAPL"]
        (fun _ =>
          [{ document_id := "AAPL_2023_4_10K", ticker := "AAPL", year := 2023,
             quarter := none, filing_type := "10-K", filing_date := none },
           { document_id := "AAPL_2023_1_10Q", ticker := "AAPL", year := 2023,
             quarter := some 1, filing_type := "10-Q", filing_date := none },
           { document_id := "AAPL_2023_2_10Q", ticker := "AAPL", year := 2023,
             quarter := some 2, filing_type := "10-Q", filing_date := none }])
        2025
        { query := "apple 2023", companies := ["AAPL"], years := [2023],
          quarters := [1, 2], topics := [], embedding := none } =
      [{ document_id := "AAPL_2023_4_10K", relevance_score := 1 },
       { document_id := "AAPL_2023_1_10Q", relevance_score := mkRat 9 10 },
       { document_id := "AAPL_2023_2_10Q", relevance_score := mkRat 9 10 }] :=
  select_documents_ranking.1 _ _ _ _ _ _ _ 2023 _ _ _
    (by decide) (List.Perm.refl _) rfl rfl rfl rfl rfl rfl rfl rfl

/-! ## Claim C6: empty quarters list -/

/-- Claim C6 counterexample: a company with 10-Q filings for quarters 1 and 4
and an analysis with an empty quarters list.  The selector defaults the
quarters to `[1, 2, 3, 4]`, returns the Q1 10-Q at relevance `0.9` (not `0.8`)
and omits the Q4 10-Q entirely, refuting the claim that every available 10-Q
is added at relevance `0.8`. -/
theorem select_documents_empty_quarters_counterexample :
    select_documents ["AAPL"]
        (fun _ =>
          [{ document_id := "AAPL_2023_1_10Q", ticker := "AAPL", year := 2023,
             quarter := some 1, filing_type := "10-Q", filing_date := none },
           { document_id := "AAPL_2023_4_10Q", ticker := "AAPL", year := 2023,
             quarter := some 4, filing_type := "10-Q", filing_date := none }])
        2025
        { query := "apple 2023", companies := ["AAPL"], years := [2023],
          quarters := [], topics := [], embedding := none } =
      [{ document_id := "AAPL_2023_1_10Q", relevance_score := mkRat 9 10 }]
    ∧ ({ document_id := "AAPL_2023_1_10Q", relevance_score := mkRat 4 5 }
        : DocumentReference) ∉
      select_documents ["AAPL"]
        (fun _ =>
          [{ document_id := "AAPL_2023_1_10Q", ticker := "AAPL", year := 2023,
             quarter := some 1, filing_type := "10-Q", filing_date := none },
           { document_id := "AAPL_2023_4_10Q", ticker := "AAPL", year := 2023,
             quarter := some 4, filing_type := "10-Q", filing_date := none }])
        2025
        { query := "apple 2023", companies := ["AAPL"], years := [2023],
          quarters := [], topics := [], embedding := none } :=
  ⟨by decide, by decide⟩

theorem quarter_step_fold_scores (docs : List DocumentMetadata) (year : Int) :
    ∀ (quarters : List Int) (refs : List DocumentReference) (r : DocumentReference),
      r ∈ quarters.foldl (DocumentSelector.quarter_step docs year) refs →
      r ∈ refs ∨ r.relevance_score = mkRat 9 10 := by
  intro quarters
  induction quarters with
  | nil =>
    intro refs r h
    exact .inl h
  | cons q t ih =>
    intro refs r h
    rw [List.foldl_cons] at h
    rcases ih _ r h with h1 | h2
    · unfold DocumentSelector.quarter_step at h1
      by_cases hq : q = 4
      · rw [if_pos hq] at h1
        exact .inl h1
      · rw [if_neg hq] at h1
        rcases List.mem_append.mp h1 with h3 | h4
        · exact .inl h3
        · rcases List.mem_map.mp h4 with ⟨d, _, rfl⟩
          exact .inr rfl
    · exact .inr h2

theorem year_step_scores (docs : List DocumentMetadata)
    (state : List DocumentReference × List Int) (year : Int) (r : DocumentReference)
    (h : r ∈ (DocumentSelector.year_step docs state year).1) :
    r ∈ state.1 ∨ r.relevance_score = 1 ∨ r.relevance_score = mkRat 9 10 := by
  have hq : (if state.2 = [] then ([1, 2, 3, 4] : List Int) else state.2) ≠ [] := by
    by_cases h2 : state.2 = []
    · rw [if_pos h2]
      simp
    · rw [if_neg h2]
      exact h2
  simp only [DocumentSelector.year_step, if_neg hq] at h
  rcases quarter_step_fold_scores docs year _ _ r h with h1 | h2
  · rcases List.mem_append.mp h1 with h3 | h4
    · exact .inl h3
    · rcases List.mem_map.mp h4 with ⟨d, _, rfl⟩
      exact .inr (.inl rfl)
  · exact .inr (.inr h2)

theorem years_fold_scores (docs : List DocumentMetadata) :
    ∀ (years : List Int) (state : List DocumentReference × List Int)
      (r : DocumentReference),
      r ∈ (years.foldl (DocumentSelector.year_step docs) state).1 →
      r ∈ state.1 ∨ r.relevance_score = 1 ∨ r.relevance_score = mkRat 9 10 := by
  intro years
  induction years with
  | nil =>
    intro state r h
    exact .inl h
  | cons y t ih =>
    intro state r h
    rw [List.foldl_cons] at h
    rcases ih _ r h with h1 | h2
    · exact year_step_scores docs state y r h1
    · exact .inr h2

theorem companies_fold_scores (registry : List String)
    (repo_documents : String → List DocumentMetadata) (years : List Int) :
    ∀ (companies : List String) (state : List DocumentReference × List Int)
      (r : DocumentReference),
      r ∈ (companies.foldl
        (DocumentSelector.company_step registry repo_documents years) state).1 →
      r ∈ state.1 ∨ r.relevance_score = 1 ∨ r.relevance_score = mkRat 9 10 := by
  intro companies
  induction companies with
  | nil =>
    intro state r h
    exact .inl h
  | cons c t ih =>
    intro state r h
    rw [List.foldl_cons] at h
    rcases ih _ r h with h1 | h2
    · unfold DocumentSelector.company_step at h1
      by_cases hc : c ∉ registry
      · rw [if_pos hc] at h1
        exact .inl h1
      · rw [if_neg hc] at h1
        exact years_fold_scores _ _ _ r h1
    · exact .inr h2

/-- Claim C6 (amended): with an empty quarters list the selector defaults the
quarters to `[1, 2, 3, 4]`; for a requested (company, year) pair it adds the
10-Ks at relevance `1.0` and the 10-Q filings of quarters 1 to 3 at relevance
`0.9` (quarter-4 10-Qs are subsumed by the 10-K and skipped); the `0.8` branch
is unreachable — no reference it returns ever carries relevance `0.8`,
whatever the analysis. -/
theorem select_documents_empty_quarters_amended :
    (∀ (registry : List String) (repo_documents : String → List DocumentMetadata)
        (current_year : Int) (qs : String) (topics : List String)
        (emb : Option (List ℚ)) (c : String) (y : Int),
      c ∈ registry →
      select_documents registry repo_documents current_year
          { query := qs, companies := [c], years := [y], quarters := [],
            topics := topics, embedding := emb } =
        pySortByScoreDesc DocumentReference.relevance_score
          (((repo_documents c).filter
              (fun d => d.year == y && d.filing_type == "10-K")).map
              (fun d => { document_id := d.document_id, relevance_score := (1 : ℚ) })
            ++ ((repo_documents c).filter
              (fun d => d.year == y && d.filing_type == "10-Q" && d.quarter == some 1)).map
              (fun d => { document_id := d.document_id, relevance_score := mkRat 9 10 })
            ++ ((repo_documents c).filter
              (fun d => d.year == y && d.filing_type == "10-Q" && d.quarter == some 2)).map
              (fun d => { document_id := d.document_id, relevance_score := mkRat 9 10 })
            ++ ((repo_documents c).filter
              (fun d => d.year == y && d.filing_type == "10-Q" && d.quarter == some 3)).map
              (fun d => { document_id := d.document_id, relevance_score := mkRat 9 10 })))
    ∧ (∀ (registry : List String) (repo_documents : String → List DocumentMetadata)
        (current_year : Int) (qa : QueryAnalysis) (r : DocumentReference),
        r ∈ select_documents registry repo_documents current_year qa →
        r.relevance_score = 1 ∨ r.relevance_score = mkRat 9 10) := by
  constructor
  · intro registry repo_documents current_year qs topics emb c y hreg
    simp [select_documents, DocumentSelector.company_step, DocumentSelector.year_step,
      DocumentSelector.quarter_step, hreg, List.append_assoc]
  · intro registry repo_documents current_year qa r h
    unfold select_documents at h
    by_cases hc : qa.companies = []
    · rw [if_pos hc] at h
      exact absurd h (by simp)
    · rw [if_neg hc] at h
      have h2 := (pySortByScoreDesc_perm DocumentReference.relevance_score _).mem_iff.mp h
      rcases companies_fold_scores _ _ _ _ _ r h2 with h3 | h4
      · exact absurd h3 (by simp)
      · exact h4

/-- Witness for the amended claim C6: a concrete store with one Q1 10-Q, an
empty quarters list, and a returned reference carrying relevance `0.9`. -/
theorem select_documents_empty_quarters_amended_witness :
    select_documents ["AAPL"]
        (fun _ => [{ document_id := "AAPL_2023_1_10Q", ticker := "AAPL", year := 2023, quarter := some 1, filing_type := "10-Q", filing_date := none }])
        2025
        { query := "apple 2023", companies := ["AAPL"], years := [2023], quarters := [], topics := [], embedding := none } =
      [{ document_id := "AAPL_2023_1_10Q", relevance_score := mkRat 9 10 }]
    ∧ (({ document_id := "AAPL_2023_1_10Q", relevance_score := mkRat 9 10 } : DocumentReference).relevance_score = 1
        ∨ ({ document_id := "AAPL_2023_1_10Q", relevance_score := mkRat 9 10 } : DocumentReference).relevance_score = mkRat 9 10) := by
  constructor
  · rw [select_documents_empty_quarters_amended.1 ["AAPL"]
      (fun _ => [{ document_id := "AAPL_2023_1_10Q", ticker := "AAPL", year := 2023, quarter := some 1, filing_type := "10-Q", filing_date := none }])
      2025 "apple 2023" [] none "AAPL" 2023 (by decide)]
    decide
  · exact select_documents_empty_quarters_amended.2 ["AAPL"]
      (fun _ => [{ document_id := "AAPL_2023_1_10Q", ticker := "AAPL", year := 2023, quarter := some 1, filing_type := "10-Q", filing_date := none }])
      2025
      { query := "apple 2023", companies := ["AAPL"], years := [2023], quarters := [], topics := [], embedding := none }
      { document_id := "AAPL_2023_1_10Q", relevance_score := mkRat 9 10 }
      (by decide)

/-! ## Claim C7: content retrieval -/

/-- Claim C7 (code bug): content retrieval can never return the claimed
constrained, descending-sorted, `top_k`-truncated chunks — the `order_by` of
`EmbeddingRepository.search_embeddings` evaluates the bare name `text`, which
`database/repository.py` never imports (only `func` from sqlalchemy), so every
call raises `NameError`; no function between the store and
`ContentRetriever.retrieve_content` handles it, so `retrieve_content`
propagates the exception for every store, query, selection and `top_k`. -/
theorem retrieve_content_raises_name_error :
    ("text" ∉ repository_py_sqlalchemy_imports)
    ∧ (∀ (chunk_embeddings : List (DocumentChunkRow × List ℚ))
        (cosine_similarity : List ℚ → List ℚ → ℚ) (embedding_model : String)
        (api : String → Except Unit (List ℚ)) (query : String)
        (query_analysis : QueryAnalysis) (document_references : List DocumentReference)
        (top_k : Nat),
        retrieve_content chunk_embeddings cosine_similarity embedding_model api query
          query_analysis document_references top_k = .error (.nameError "text"))
    ∧ (∀ (chunk_embeddings : List (DocumentChunkRow × List ℚ))
        (cosine_similarity : List ℚ → List ℚ → ℚ) (query_embedding : List ℚ)
        (top_k : Nat) (filter_dict : Option FilterDict),
        EmbeddingRepository.search_embeddings chunk_embeddings cosine_similarity
          query_embedding top_k filter_dict = .error (.nameError "text")) := by
  refine ⟨by decide, ?_, ?_⟩
  · intro chunk_embeddings cosine_similarity embedding_model api query
      query_analysis document_references top_k
    rfl
  · intro chunk_embeddings cosine_similarity query_embedding top_k filter_dict
    rfl

end Farsight2
